import Mathlib

/-!
Verification development for the ai-hub repository.

The repository consists of two Python scripts:
* `src/main.py` — a YouTube video analysis pipeline: a transcript resolver
  (`get_transcript`, captions API with a Whisper speech-to-text fallback and a
  temporary audio file) and an insight extractor (`get_insights`, computing
  sentiment, a summary and named entities over a transcript).
* `src/scripts/fetch_hf_paper.py` — a paper-metadata fetcher
  (`fetch_paper_metadata`) that tries several HTTP endpoints in order.

External collaborators (the captions API, pytube, Whisper, TextBlob, the
summarizer, spaCy, the HTTP session) are modelled as oracle environments: a
record of functions and flags describing how each external call would answer
during one invocation.  Exceptions raised by an external call are modelled as
`none` / `Option`-failure results.  Python floats (the TextBlob polarity) are
idealised as rationals.  The observable file-system state is a single boolean:
whether the fixed temporary audio file `temp_audio.mp4` exists.  Each embedded
function additionally returns a trace of the external actions it performed, so
that claims about calls never made ("the fallback is never invoked") are
statable.
-/

/-! ## String helpers: Python `str.split(sep)[-1]` and `sep.join` -/

/-- Embedding of Python single-character `str.split`: `splitOnCharAux c l`
returns the first piece and the list of remaining pieces of `l` split at every
occurrence of `c` (so the full Python split list is `fst :: snd`). -/
def splitOnCharAux (c : Char) : List Char → List Char × List (List Char)
  | [] => ([], [])
  | x :: xs =>
    let r := splitOnCharAux c xs
    if x = c then ([], r.1 :: r.2) else (x :: r.1, r.2)

/-- Python `s.split(c)[-1]`: the last piece of the split. -/
def pySplitLastChars (c : Char) (l : List Char) : List Char :=
  ((splitOnCharAux c l).1 :: (splitOnCharAux c l).2).getLastD []

/-- Specification-side description of `split(c)[-1]`: the characters after the
last occurrence of `c`, or the whole list when `c` does not occur. -/
def afterLastChar (c : Char) : List Char → List Char
  | [] => []
  | x :: xs =>
    if c ∈ xs then afterLastChar c xs
    else if x = c then xs else x :: xs

/-- Specification-side: the substring of `s` after the last occurrence of `c`
(`s` itself when `c` does not occur). -/
def afterLastOcc (c : Char) (s : String) : String :=
  ⟨afterLastChar c s.data⟩

/-- `src/main.py` line 75:
`video_id = video_url.split("=")[-1] if "=" in video_url else video_url.split("/")[-1]`. -/
def extractVideoId (video_url : String) : String :=
  if '=' ∈ video_url.data then ⟨pySplitLastChars '=' video_url.data⟩
  else ⟨pySplitLastChars '/' video_url.data⟩

/-- The single-space separator used by `" ".join(...)` on line 85. -/
def singleSpace : String := " "

/-- The empty string (used as a harmless `Option.getD` default and as the
replacement string of `str.replace(..., '')`). -/
def emptyStr : String := ""

/-! ## Transcript resolver (`get_transcript`, `src/main.py` lines 69-131) -/

/-- External actions `get_transcript` may perform, in particular the captions
fetch (with the video id it was given), the audio download that creates
`temp_audio.mp4`, the Whisper transcription, and an `os.remove` attempt on the
temporary audio file. -/
inductive TEvent where
  | fetchCaptions (videoId : String)
  | buildYouTube
  | getAudioStream
  | downloadAudio
  | transcribeAudio
  | removeTemp
deriving DecidableEq, Repr

/-- Oracle environment for one `get_transcript` call: how each external
collaborator would answer.  `fetchCaptions` is the captions API keyed by the
video id (`none` = the call raises: network error, captions disabled, ...);
`whisperLoaded` is whether the process-start `whisper.load_model` succeeded;
`ytOk` whether `YouTube(video_url)` succeeds; `audioStreamExists` whether
`yt.streams.get_audio_only()` is non-`None`; `downloadOk` whether the audio
download succeeds (creating the temporary file); `transcribeResult` the Whisper
output text (`none` = the transcription raises); `removeFails` whether
`os.remove` on the temporary file raises. -/
structure TranscriptEnv where
  fetchCaptions : String → Option (List String)
  whisperLoaded : Bool
  ytOk : Bool
  audioStreamExists : Bool
  downloadOk : Bool
  transcribeResult : Option String
  removeFails : Bool

/-- Result of one `get_transcript` call: the returned transcript (`none` for
Python `None`), whether `temp_audio.mp4` exists after the call, and the trace
of external actions performed. -/
structure TResult where
  text : Option String
  fileAfter : Bool
  trace : List TEvent
deriving DecidableEq, Repr

/-- Embedding of `get_transcript` (`src/main.py` lines 69-131).  `fileBefore`
is whether `temp_audio.mp4` already exists when the call starts (the script
reuses one fixed name across calls).  Method 1 is the captions API; on any of
its failures the code falls back to pytube audio download plus Whisper, with
best-effort `os.remove` cleanup of the temporary file on both the
transcription success path (lines 113-116) and the exception path
(lines 124-128, guarded by `os.path.exists`). -/
def get_transcript (env : TranscriptEnv) (fileBefore : Bool) (video_url : String) :
    TResult :=
  let video_id := extractVideoId video_url
  match env.fetchCaptions video_id with
  | some segs =>
      { text := some (String.intercalate singleSpace segs)
        fileAfter := fileBefore
        trace := [TEvent.fetchCaptions video_id] }
  | none =>
      if env.whisperLoaded then
        if env.ytOk then
          if env.audioStreamExists then
            if env.downloadOk then
              match env.transcribeResult with
              | some t =>
                  { text := some t
                    fileAfter := env.removeFails
                    trace := [TEvent.fetchCaptions video_id, TEvent.buildYouTube,
                              TEvent.getAudioStream, TEvent.downloadAudio,
                              TEvent.transcribeAudio, TEvent.removeTemp] }
              | none =>
                  { text := none
                    fileAfter := env.removeFails
                    trace := [TEvent.fetchCaptions video_id, TEvent.buildYouTube,
                              TEvent.getAudioStream, TEvent.downloadAudio,
                              TEvent.transcribeAudio, TEvent.removeTemp] }
            else
              { text := none
                fileAfter := fileBefore && env.removeFails
                trace := [TEvent.fetchCaptions video_id, TEvent.buildYouTube,
                          TEvent.getAudioStream, TEvent.downloadAudio] ++
                         (if fileBefore then [TEvent.removeTemp] else []) }
          else
            { text := none
              fileAfter := fileBefore
              trace := [TEvent.fetchCaptions video_id, TEvent.buildYouTube,
                        TEvent.getAudioStream] }
        else
          { text := none
            fileAfter := fileBefore && env.removeFails
            trace := [TEvent.fetchCaptions video_id, TEvent.buildYouTube] ++
                     (if fileBefore then [TEvent.removeTemp] else []) }
      else
        { text := none
          fileAfter := fileBefore
          trace := [TEvent.fetchCaptions video_id] }

/-! ## Insight extractor (`get_insights`, `src/main.py` lines 134-198) -/

/-- Python `round(q, 3)` on the idealised rational polarity: round half to
even at three decimal places. -/
def roundHalfEven (q : ℚ) : ℤ :=
  let n := Rat.floor q
  let frac := q - (n : ℚ)
  if frac < (1/2 : ℚ) then n
  else if (1/2 : ℚ) < frac then n + 1
  else if n % 2 = 0 then n else n + 1

/-- `round(polarity, 3)` from `src/main.py` line 156. -/
def pyRound3 (q : ℚ) : ℚ := ((roundHalfEven (q * 1000) : ℤ) : ℚ) / 1000

/-- The sentiment value stored under `insights["sentiment"]`
(`{"label": ..., "score": ...}`). -/
structure SentimentInfo where
  label : String
  score : ℚ
deriving DecidableEq, Repr

/-- The insight dictionary returned by `get_insights`.  Each field's outer
`Option` models presence of the key in the Python dict (all keys absent for
the empty bundle `{}`); the inner `Option` models a Python `None` value. -/
structure Insights where
  sentiment : Option (Option SentimentInfo)
  summary : Option (Option String)
  entities : Option (List (String × String))
deriving DecidableEq, Repr

/-- Oracle environment for one `get_insights` call.  `textblobPolarity` is
`TextBlob(text).sentiment.polarity` (`none` = it raises); `summarizerLoaded`
and `nlpLoaded` are whether the process-start model loads succeeded;
`summarize` is the summarizer result text on its input snippet (`none` = the
call raises); `nerSpans` lists the `(ent.text, ent.label_)` pairs of the spaCy
document in order (`none` = the call raises). -/
structure InsightsEnv where
  textblobPolarity : String → Option ℚ
  summarizerLoaded : Bool
  summarize : String → Option String
  nlpLoaded : Bool
  nerSpans : String → Option (List (String × String))

/-- Python truthiness test `not full_transcript` for an optional string. -/
def isFalsy : Option String → Bool
  | none => true
  | some s => s == ""

/-- The entity categories kept on `src/main.py` line 182. -/
def allowedLabels : List String := ["PERSON", "ORG", "GPE", "PRODUCT"]

/-- The duplicate-removal loop of `src/main.py` lines 185-190: walk the list,
keep an element only when it has not been seen, remembering seen elements. -/
def dedupKeepFirst {α : Type} [DecidableEq α] (seen : List α) :
    List α → List α
  | [] => []
  | e :: rest =>
    if e ∈ seen then dedupKeepFirst seen rest
    else e :: dedupKeepFirst (e :: seen) rest

/-- Index of the first occurrence of `a` in a list (length of the list when
absent); used to state first-occurrence-order properties. -/
def firstIdx {α : Type} [DecidableEq α] (a : α) : List α → Nat
  | [] => 0
  | x :: xs => if x = a then 0 else firstIdx a xs + 1

/-- Embedding of `get_insights` (`src/main.py` lines 134-198).  An empty or
absent transcript yields the empty dict.  Otherwise the three analyses run in
sequence, each in its own `try`/`except`: a raising analysis only sets its own
field to `None` (or `[]` for entities); an unavailable model sets `summary` to
`None` / `entities` to `[]` without calling anything.  The summarizer is fed
only the first 1000 characters of the transcript; spaCy gets the full text. -/
def get_insights (env : InsightsEnv) (full_transcript : Option String) :
    Insights :=
  if isFalsy full_transcript then
    { sentiment := none, summary := none, entities := none }
  else
    let s := full_transcript.getD emptyStr
    { sentiment :=
        match env.textblobPolarity s with
        | some polarity =>
            some (some
              { label :=
                  if polarity > (1/10 : ℚ) then "Positive"
                  else if polarity < -(1/10 : ℚ) then "Negative"
                  else "Neutral"
                score := pyRound3 polarity })
        | none => some none
      summary :=
        if env.summarizerLoaded then
          match env.summarize (s.take 1000) with
          | some t => some (some t)
          | none => some none
        else some none
      entities :=
        if env.nlpLoaded then
          match env.nerSpans s with
          | some spans =>
              some (dedupKeepFirst []
                (spans.filter (fun e => decide (e.2 ∈ allowedLabels))))
          | none => some []
        else some [] }

/-! ## Paper metadata fetcher
(`fetch_paper_metadata`, `src/scripts/fetch_hf_paper.py` lines 29-62) -/

/-- Outcome of `self.session.get(endpoint, timeout=10)`: a 200 response with a
decoded JSON body, a non-200 status code, or a raised
`requests.exceptions.RequestException`. -/
inductive HttpResult where
  | ok (body : String)
  | status (code : Nat)
  | exc
deriving DecidableEq, Repr

/-- Whether the response was a 200. -/
def HttpResult.isOk200 : HttpResult → Bool
  | .ok _ => true
  | _ => false

/-- The decoded JSON body of a 200 response. -/
def HttpResult.bodyOf : HttpResult → Option String
  | .ok b => some b
  | _ => none

/-- `BASE_URL` of `HuggingFacePaperFetcher`. -/
def BASE_URL : String := "https://huggingface.co/api"

/-- The `arxiv:` tag stripped from ids (line 40). -/
def tagLower : String := "arxiv:"

/-- The `arXiv:` tag stripped from ids (line 40). -/
def tagUpper : String := "arXiv:"

/-- Line 40: `clean_id = arxiv_id.replace('arxiv:', '').replace('arXiv:', '')`. -/
def cleanArxivId (arxiv_id : String) : String :=
  (arxiv_id.replace tagLower emptyStr).replace tagUpper emptyStr

/-- Lines 43-47: the three candidate endpoints tried in order. -/
def paperEndpoints (clean_id : String) : List String :=
  [BASE_URL ++ "/papers/" ++ clean_id,
   BASE_URL ++ "/papers/arxiv:" ++ clean_id,
   BASE_URL ++ "/papers/arXiv:" ++ clean_id]

/-- The endpoint loop of lines 49-62: query each endpoint with `timeout=10`;
return the decoded body of the first 200; on a 404, on any other status, or on
a `RequestException`, move on to the next endpoint.  Returns the result
together with the trace of `(endpoint, timeout)` requests issued. -/
def fetchLoop (http : String → HttpResult) :
    List String → Option String × List (String × Nat)
  | [] => (none, [])
  | e :: rest =>
    match http e with
    | .ok body => (some body, [(e, 10)])
    | .status _ =>
        let r := fetchLoop http rest
        (r.1, (e, 10) :: r.2)
    | .exc =>
        let r := fetchLoop http rest
        (r.1, (e, 10) :: r.2)

/-- Embedding of `HuggingFacePaperFetcher.fetch_paper_metadata`
(lines 29-62): clean the id, build the endpoints, run the loop. -/
def fetch_paper_metadata (http : String → HttpResult) (arxiv_id : String) :
    Option String × List (String × Nat) :=
  fetchLoop http (paperEndpoints (cleanArxivId arxiv_id))

/-! ## Concrete sample environments used by witnesses -/

/-- A captions-API success environment. -/
def envCap : TranscriptEnv :=
  { fetchCaptions := fun _ => some ["Hello", "world"]
    whisperLoaded := true
    ytOk := true
    audioStreamExists := true
    downloadOk := true
    transcribeResult := some "whisper text"
    removeFails := false }

/-- A captions-API failure environment with Whisper not loaded. -/
def envNoWhisper : TranscriptEnv :=
  { fetchCaptions := fun _ => none
    whisperLoaded := false
    ytOk := true
    audioStreamExists := true
    downloadOk := true
    transcribeResult := some "whisper text"
    removeFails := false }

/-- A captions-API failure environment where the whole fallback runs. -/
def envFallback : TranscriptEnv :=
  { fetchCaptions := fun _ => none
    whisperLoaded := true
    ytOk := true
    audioStreamExists := true
    downloadOk := true
    transcribeResult := some "whisper text"
    removeFails := false }

/-- A sample video URL. -/
def sampleUrl : String := "https://www.youtube.com/watch?v=abc123"

/-- A sample non-empty transcript. -/
def sampleText : String := "This was an amazing trip to Paris with John Smith"

/-- An insights environment where every analysis succeeds. -/
def envHappy : InsightsEnv :=
  { textblobPolarity := fun _ => some (1/2)
    summarizerLoaded := true
    summarize := fun _ => some "a short summary"
    nlpLoaded := true
    nerSpans := fun _ =>
      some [("Paris", "GPE"), ("John Smith", "PERSON"), ("Paris", "GPE")] }

/-- `envHappy` with the sentiment analysis raising. -/
def envSentFail : InsightsEnv :=
  { envHappy with textblobPolarity := fun _ => none }

/-- `envHappy` with the summarizer call raising. -/
def envSumFail : InsightsEnv :=
  { envHappy with summarize := fun _ => none }

/-- `envHappy` with the spaCy call raising. -/
def envNerFail : InsightsEnv :=
  { envHappy with nerSpans := fun _ => none }

/-- An insights environment with neither optional model loaded. -/
def envNoModels : InsightsEnv :=
  { textblobPolarity := fun _ => some (1/2)
    summarizerLoaded := false
    summarize := fun _ => none
    nlpLoaded := false
    nerSpans := fun _ => none }

/-- An HTTP oracle answering 404 everywhere. -/
def httpAll404 : String → HttpResult := fun _ => HttpResult.status 404

/-- A sample arXiv id. -/
def sampleArxivId : String := "2301.00001"

/-! ## Helper lemmas -/

/-- `getLastD` of a non-empty list ignores the default. -/
theorem getLastD_congr {α : Type} (t : List α) (a b : α) (h : t ≠ []) :
    t.getLastD a = t.getLastD b := by
  cases t with
  | nil => exact absurd rfl h
  | cons x xs => rw [List.getLastD_cons, List.getLastD_cons]

/-- Splitting step when the head is the separator. -/
theorem splitOnCharAux_cons_pos (c x : Char) (xs : List Char) (h : x = c) :
    splitOnCharAux c (x :: xs) =
      ([], (splitOnCharAux c xs).1 :: (splitOnCharAux c xs).2) := by
  simp [splitOnCharAux, h]

/-- Splitting step when the head is not the separator. -/
theorem splitOnCharAux_cons_neg (c x : Char) (xs : List Char) (h : ¬ x = c) :
    splitOnCharAux c (x :: xs) =
      (x :: (splitOnCharAux c xs).1, (splitOnCharAux c xs).2) := by
  simp [splitOnCharAux, h]

/-- A list without the separator splits into itself. -/
theorem splitOnCharAux_not_mem (c : Char) (l : List Char) (h : c ∉ l) :
    splitOnCharAux c l = (l, []) := by
  induction l with
  | nil => rfl
  | cons x xs ih =>
    have hx : ¬ x = c := fun he => h (by simp [he])
    have hxs : c ∉ xs := fun hm => h (List.mem_cons_of_mem x hm)
    rw [splitOnCharAux_cons_neg c x xs hx, ih hxs]

/-- A list containing the separator splits into at least two pieces. -/
theorem splitOnCharAux_snd_ne_nil (c : Char) (l : List Char) (h : c ∈ l) :
    (splitOnCharAux c l).2 ≠ [] := by
  induction l with
  | nil => simp at h
  | cons x xs ih =>
    by_cases hx : x = c
    · rw [splitOnCharAux_cons_pos c x xs hx]
      simp
    · have hxs : c ∈ xs := by
        rcases List.mem_cons.mp h with h1 | h1
        · exact absurd h1.symm hx
        · exact h1
      rw [splitOnCharAux_cons_neg c x xs hx]
      exact ih hxs

/-- The last piece of a Python split is the suffix after the last separator. -/
theorem pySplitLastChars_eq_afterLastChar (c : Char) (l : List Char) :
    pySplitLastChars c l = afterLastChar c l := by
  induction l with
  | nil => rfl
  | cons x xs ih =>
    by_cases hx : x = c
    · have step : pySplitLastChars c (x :: xs) = pySplitLastChars c xs := by
        unfold pySplitLastChars
        rw [splitOnCharAux_cons_pos c x xs hx]
        rw [List.getLastD_cons, List.getLastD_cons]
      by_cases hxs : c ∈ xs
      · rw [step, ih]
        simp [afterLastChar, hxs]
      · rw [step]
        unfold pySplitLastChars
        rw [splitOnCharAux_not_mem c xs hxs]
        simp [afterLastChar, hxs, hx]
    · by_cases hxs : c ∈ xs
      · have h2 := splitOnCharAux_snd_ne_nil c xs hxs
        have step : pySplitLastChars c (x :: xs) = pySplitLastChars c xs := by
          unfold pySplitLastChars
          rw [splitOnCharAux_cons_neg c x xs hx]
          rw [List.getLastD_cons, List.getLastD_cons]
          exact getLastD_congr _ _ _ h2
        rw [step, ih]
        simp [afterLastChar, hxs]
      · unfold pySplitLastChars
        rw [splitOnCharAux_not_mem c (x :: xs) (by
          intro hm
          rcases List.mem_cons.mp hm with h1 | h1
          · exact hx h1.symm
          · exact hxs h1)]
        simp [afterLastChar, hxs, hx]

/-- The derived video identifier is the substring after the last `'='` when the
URL contains one, and after the last `'/'` otherwise. -/
theorem extractVideoId_eq_afterLastOcc (url : String) :
    extractVideoId url =
      if '=' ∈ url.data then afterLastOcc '=' url else afterLastOcc '/' url := by
  unfold extractVideoId afterLastOcc
  by_cases h : '=' ∈ url.data <;>
    simp [h, pySplitLastChars_eq_afterLastChar]

/-- Membership in the de-duplication loop's output. -/
theorem mem_dedupKeepFirst {α : Type} [DecidableEq α] (l : List α) :
    ∀ (seen : List α) (x : α),
      x ∈ dedupKeepFirst seen l ↔ x ∈ l ∧ x ∉ seen := by
  induction l with
  | nil =>
    intro seen x
    simp [dedupKeepFirst]
  | cons e rest ih =>
    intro seen x
    by_cases he : e ∈ seen
    · simp only [dedupKeepFirst, if_pos he]
      constructor
      · intro hmem
        have h2 := (ih seen x).mp hmem
        exact ⟨List.mem_cons_of_mem _ h2.1, h2.2⟩
      · rintro ⟨h1, h2⟩
        rcases List.mem_cons.mp h1 with h3 | h3
        · exact absurd (h3.symm ▸ he) h2
        · exact (ih seen x).mpr ⟨h3, h2⟩
    · simp only [dedupKeepFirst, if_neg he]
      constructor
      · intro hmem
        rcases List.mem_cons.mp hmem with h3 | h3
        · subst h3
          exact ⟨List.mem_cons_self _ _, he⟩
        · have h4 := (ih (e :: seen) x).mp h3
          exact ⟨List.mem_cons_of_mem _ h4.1,
            fun hs => h4.2 (List.mem_cons_of_mem _ hs)⟩
      · rintro ⟨h1, h2⟩
        by_cases hxe : x = e
        · exact List.mem_cons.mpr (Or.inl hxe)
        · have h3 : x ∈ rest := by
            rcases List.mem_cons.mp h1 with h4 | h4
            · exact absurd h4 hxe
            · exact h4
          refine List.mem_cons_of_mem _ ((ih (e :: seen) x).mpr ⟨h3, ?_⟩)
          intro hs
          rcases List.mem_cons.mp hs with h5 | h5
          · exact hxe h5
          · exact h2 h5

/-- The de-duplication loop never outputs a duplicate. -/
theorem nodup_dedupKeepFirst {α : Type} [DecidableEq α] (l : List α) :
    ∀ seen : List α, (dedupKeepFirst seen l).Nodup := by
  induction l with
  | nil =>
    intro seen
    simp [dedupKeepFirst]
  | cons e rest ih =>
    intro seen
    by_cases he : e ∈ seen
    · simp only [dedupKeepFirst, if_pos he]
      exact ih seen
    · simp only [dedupKeepFirst, if_neg he]
      refine List.nodup_cons.mpr ⟨?_, ih (e :: seen)⟩
      intro hmem
      exact ((mem_dedupKeepFirst rest (e :: seen) e).mp hmem).2
        (List.mem_cons_self _ _)

/-- The de-duplication loop lists elements by increasing index of first
occurrence in its input. -/
theorem pairwise_firstIdx_dedupKeepFirst {α : Type} [DecidableEq α]
    (l : List α) :
    ∀ seen : List α,
      (dedupKeepFirst seen l).Pairwise
        (fun a b => firstIdx a l < firstIdx b l) := by
  induction l with
  | nil =>
    intro seen
    simp [dedupKeepFirst]
  | cons e rest ih =>
    intro seen
    by_cases he : e ∈ seen
    · simp only [dedupKeepFirst, if_pos he]
      refine List.Pairwise.imp_of_mem ?_ (ih seen)
      intro a b ha hb hr
      have ha2 := (mem_dedupKeepFirst rest seen a).mp ha
      have hb2 := (mem_dedupKeepFirst rest seen b).mp hb
      have hae : ¬ e = a := fun h => ha2.2 (h ▸ he)
      have hbe : ¬ e = b := fun h => hb2.2 (h ▸ he)
      simp only [firstIdx, if_neg hae, if_neg hbe]
      exact Nat.succ_lt_succ hr
    · simp only [dedupKeepFirst, if_neg he]
      refine List.pairwise_cons.mpr ⟨?_, ?_⟩
      · intro b hb
        have hb2 := (mem_dedupKeepFirst rest (e :: seen) b).mp hb
        have hbe : ¬ e = b := fun h => hb2.2 (h ▸ List.mem_cons_self e seen)
        have h1 : firstIdx e (e :: rest) = 0 := by simp [firstIdx]
        have h2 : firstIdx b (e :: rest) = firstIdx b rest + 1 := by
          simp [firstIdx, hbe]
        rw [h1, h2]
        exact Nat.succ_pos _
      · refine List.Pairwise.imp_of_mem ?_ (ih (e :: seen))
        intro a b ha hb hr
        have ha2 := (mem_dedupKeepFirst rest (e :: seen) a).mp ha
        have hb2 := (mem_dedupKeepFirst rest (e :: seen) b).mp hb
        have hae : ¬ e = a := fun h => ha2.2 (h ▸ List.mem_cons_self e seen)
        have hbe : ¬ e = b := fun h => hb2.2 (h ▸ List.mem_cons_self e seen)
        simp only [firstIdx, if_neg hae, if_neg hbe]
        exact Nat.succ_lt_succ hr

/-- Full characterisation of the endpoint loop: its returned value is the body
of the first 200-endpoint, it requests every endpoint up to and including the
first 200 (all of them when none answers 200), and every request uses
`timeout=10`. -/
theorem fetchLoop_spec (http : String → HttpResult) :
    ∀ l : List String,
      (fetchLoop http l).1 =
        (l.find? (fun e => (http e).isOk200)).bind
          (fun e => (http e).bodyOf) ∧
      (fetchLoop http l).2.map Prod.fst =
        l.takeWhile (fun e => !(http e).isOk200) ++
          (l.dropWhile (fun e => !(http e).isOk200)).take 1 ∧
      ∀ pr ∈ (fetchLoop http l).2, pr.2 = 10 := by
  intro l
  induction l with
  | nil => exact ⟨rfl, rfl, by simp [fetchLoop]⟩
  | cons e rest ih =>
    cases hr : http e with
    | ok body =>
      have hfind : List.find? (fun x => (http x).isOk200) (e :: rest) = some e :=
        List.find?_cons_of_pos rest (by simp [hr, HttpResult.isOk200])
      refine ⟨?_, ?_, ?_⟩
      · rw [hfind]
        simp [fetchLoop, hr, HttpResult.bodyOf]
      · simp [fetchLoop, hr, List.takeWhile_cons, List.dropWhile_cons,
          HttpResult.isOk200]
      · intro pr hpr
        simp [fetchLoop, hr] at hpr
        simp [hpr]
    | status c =>
      have hfind : List.find? (fun x => (http x).isOk200) (e :: rest) =
          List.find? (fun x => (http x).isOk200) rest :=
        List.find?_cons_of_neg rest (by simp [hr, HttpResult.isOk200])
      refine ⟨?_, ?_, ?_⟩
      · rw [hfind]
        simpa [fetchLoop, hr] using ih.1
      · simpa [fetchLoop, hr, List.takeWhile_cons, List.dropWhile_cons,
          HttpResult.isOk200] using ih.2.1
      · intro pr hpr
        simp [fetchLoop, hr] at hpr
        rcases hpr with h1 | h1
        · simp [h1]
        · exact ih.2.2 pr h1
    | exc =>
      have hfind : List.find? (fun x => (http x).isOk200) (e :: rest) =
          List.find? (fun x => (http x).isOk200) rest :=
        List.find?_cons_of_neg rest (by simp [hr, HttpResult.isOk200])
      refine ⟨?_, ?_, ?_⟩
      · rw [hfind]
        simpa [fetchLoop, hr] using ih.1
      · simpa [fetchLoop, hr, List.takeWhile_cons, List.dropWhile_cons,
          HttpResult.isOk200] using ih.2.1
      · intro pr hpr
        simp [fetchLoop, hr] at hpr
        rcases hpr with h1 | h1
        · simp [h1]
        · exact ih.2.2 pr h1

/-- First-occurrence order inside a filtered list implies first-occurrence
order in the original list. -/
theorem firstIdx_filter_lt {α : Type} [DecidableEq α] (p : α → Bool) :
    ∀ (l : List α) (a b : α), a ∈ l.filter p → b ∈ l.filter p →
      firstIdx a (l.filter p) < firstIdx b (l.filter p) →
      firstIdx a l < firstIdx b l := by
  intro l
  induction l with
  | nil =>
    intro a b ha
    simp at ha
  | cons y ys ih =>
    intro a b ha hb hlt
    by_cases hp : p y = true
    · rw [List.filter_cons_of_pos hp] at ha hb hlt
      by_cases hya : y = a
      · by_cases hyb : y = b
        · exfalso
          rw [← hya] at hlt
          rw [← hyb] at hlt
          simp [firstIdx] at hlt
        · have hab : ¬ a = b := by
            rw [← hya]
            exact hyb
          simp [firstIdx, hya, hyb, hab]
      · by_cases hyb : y = b
        · exfalso
          have h0 : firstIdx b (y :: ys.filter p) = 0 := by
            simp [firstIdx, hyb]
          rw [h0] at hlt
          exact Nat.not_lt_zero _ hlt
        · have ha2 : a ∈ ys.filter p := by
            rcases List.mem_cons.mp ha with h1 | h1
            · exact absurd h1.symm hya
            · exact h1
          have hb2 : b ∈ ys.filter p := by
            rcases List.mem_cons.mp hb with h1 | h1
            · exact absurd h1.symm hyb
            · exact h1
          have hlt2 : firstIdx a (ys.filter p) < firstIdx b (ys.filter p) := by
            have e1 : firstIdx a (y :: ys.filter p) =
                firstIdx a (ys.filter p) + 1 := by simp [firstIdx, hya]
            have e2 : firstIdx b (y :: ys.filter p) =
                firstIdx b (ys.filter p) + 1 := by simp [firstIdx, hyb]
            rw [e1, e2] at hlt
            exact Nat.lt_of_succ_lt_succ hlt
          have h3 := ih a b ha2 hb2 hlt2
          simp only [firstIdx, if_neg hya, if_neg hyb]
          exact Nat.succ_lt_succ h3
    · rw [List.filter_cons_of_neg (by simpa using hp)] at ha hb hlt
      have hya : ¬ y = a := by
        intro h
        subst h
        exact hp (List.mem_filter.mp ha).2
      have hyb : ¬ y = b := by
        intro h
        subst h
        exact hp (List.mem_filter.mp hb).2
      have h3 := ih a b ha hb hlt
      simp only [firstIdx, if_neg hya, if_neg hyb]
      exact Nat.succ_lt_succ h3

/-! ## Claim theorems -/

/-- Claim C1: when the primary captioning retrieval succeeds and returns the
text segments `segs`, `get_transcript` returns exactly those segments joined
in order with single-space separators and returns immediately: the only
external action is the captions fetch, the fallback audio download and Whisper
transcription are never invoked, and the temporary-file state is untouched. -/
theorem captions_success_returns_join (env : TranscriptEnv) (fb : Bool)
    (url : String) (segs : List String)
    (hc : env.fetchCaptions (extractVideoId url) = some segs) :
    (get_transcript env fb url).text =
        some (String.intercalate singleSpace segs) ∧
      (get_transcript env fb url).trace =
        [TEvent.fetchCaptions (extractVideoId url)] ∧
      TEvent.downloadAudio ∉ (get_transcript env fb url).trace ∧
      TEvent.transcribeAudio ∉ (get_transcript env fb url).trace ∧
      (get_transcript env fb url).fileAfter = fb := by
  simp [get_transcript, hc]

/-- Witness for C1 at a concrete environment and URL. -/
theorem captions_success_returns_join_witness :
    (get_transcript envCap false sampleUrl).text =
        some (String.intercalate singleSpace ["Hello", "world"]) ∧
      (get_transcript envCap false sampleUrl).trace =
        [TEvent.fetchCaptions (extractVideoId sampleUrl)] ∧
      TEvent.downloadAudio ∉ (get_transcript envCap false sampleUrl).trace ∧
      TEvent.transcribeAudio ∉ (get_transcript envCap false sampleUrl).trace ∧
      (get_transcript envCap false sampleUrl).fileAfter = false :=
  captions_success_returns_join envCap false sampleUrl ["Hello", "world"] rfl

/-- Claim C6: when the primary captioning retrieval fails and either the
Whisper model is not loaded or no audio stream exists, the resolver returns no
transcript, never performs the audio download (so no temporary file is created
by this call), and — starting from a state without the temporary file — the
file is absent afterward. -/
theorem primary_fail_no_fallback_capability (env : TranscriptEnv) (fb : Bool)
    (url : String)
    (hc : env.fetchCaptions (extractVideoId url) = none)
    (hw : env.whisperLoaded = false ∨ env.audioStreamExists = false) :
    (get_transcript env fb url).text = none ∧
      TEvent.downloadAudio ∉ (get_transcript env fb url).trace ∧
      (get_transcript env false url).fileAfter = false := by
  rcases hw with hw | hw
  · simp [get_transcript, hc, hw]
  · cases hwl : env.whisperLoaded <;> cases hyt : env.ytOk <;> cases fb <;>
      simp [get_transcript, hc, hw, hwl, hyt]

/-- Witness for C6 with the Whisper model failed to load. -/
theorem primary_fail_no_fallback_capability_witness :
    (get_transcript envNoWhisper true sampleUrl).text = none ∧
      TEvent.downloadAudio ∉ (get_transcript envNoWhisper true sampleUrl).trace ∧
      (get_transcript envNoWhisper false sampleUrl).fileAfter = false :=
  primary_fail_no_fallback_capability envNoWhisper true sampleUrl rfl
    (Or.inl rfl)

/-- Claim C7: whenever the fallback speech-to-text path runs and the audio
download has created the temporary file, an `os.remove` of the temporary file
is attempted before returning — on the transcription success path as well as
on its failure path (the Whisper result is unconstrained here, covering both) —
and a failing removal is swallowed: it changes neither the returned transcript
nor the actions performed. -/
theorem fallback_cleanup_attempted (env : TranscriptEnv) (fb : Bool)
    (url : String)
    (hc : env.fetchCaptions (extractVideoId url) = none)
    (hw : env.whisperLoaded = true)
    (hy : env.ytOk = true)
    (ha : env.audioStreamExists = true)
    (hd : env.downloadOk = true) :
    TEvent.removeTemp ∈ (get_transcript env fb url).trace ∧
      (get_transcript { env with removeFails := true } fb url).text =
        (get_transcript { env with removeFails := false } fb url).text ∧
      (get_transcript { env with removeFails := true } fb url).trace =
        (get_transcript { env with removeFails := false } fb url).trace := by
  cases ht : env.transcribeResult <;>
    simp [get_transcript, hc, hw, hy, ha, hd, ht]

/-- Witness for C7 with a full concrete fallback run. -/
theorem fallback_cleanup_attempted_witness :
    TEvent.removeTemp ∈ (get_transcript envFallback false sampleUrl).trace ∧
      (get_transcript { envFallback with removeFails := true } false
          sampleUrl).text =
        (get_transcript { envFallback with removeFails := false } false
          sampleUrl).text ∧
      (get_transcript { envFallback with removeFails := true } false
          sampleUrl).trace =
        (get_transcript { envFallback with removeFails := false } false
          sampleUrl).trace :=
  fallback_cleanup_attempted envFallback false sampleUrl rfl rfl rfl rfl rfl

/-- Claim C8: the first external action of every `get_transcript` call is a
captions fetch whose video identifier is the substring of the URL after the
last `'='` when the URL contains `'='`, and the substring after the last `'/'`
otherwise. -/
theorem video_id_is_suffix_after_separator (env : TranscriptEnv) (fb : Bool)
    (url : String) :
    (get_transcript env fb url).trace.head? =
      some (TEvent.fetchCaptions
        (if '=' ∈ url.data then afterLastOcc '=' url
         else afterLastOcc '/' url)) := by
  rw [← extractVideoId_eq_afterLastOcc]
  cases hc : env.fetchCaptions (extractVideoId url) with
  | some segs => simp [get_transcript, hc]
  | none =>
    cases hwl : env.whisperLoaded <;> cases hyt : env.ytOk <;>
      cases has : env.audioStreamExists <;> cases hdl : env.downloadOk <;>
      cases htr : env.transcribeResult <;> cases fb <;>
      simp [get_transcript, hc, hwl, hyt, has, hdl, htr]

/-- Claim C2: for a non-empty transcript whose TextBlob polarity is `p`, the
sentiment field holds label Positive iff `p > 0.1`, Negative iff `p < -0.1`,
Neutral otherwise, and the score is `p` rounded (half to even) to three
decimal places. -/
theorem sentiment_label_thresholds (env : InsightsEnv) (t : Option String)
    (p : ℚ)
    (ht : isFalsy t = false)
    (hp : env.textblobPolarity (t.getD emptyStr) = some p) :
    ∃ lab : String,
      (get_insights env t).sentiment =
          some (some { label := lab, score := pyRound3 p }) ∧
        (lab = "Positive" ↔ (1/10 : ℚ) < p) ∧
        (lab = "Negative" ↔ p < -(1/10 : ℚ)) ∧
        (lab = "Neutral" ↔ (p ≤ (1/10 : ℚ) ∧ -(1/10 : ℚ) ≤ p)) := by
  have hbase : (get_insights env t).sentiment =
      some (some (SentimentInfo.mk
        (if (1/10 : ℚ) < p then "Positive"
          else if p < -(1/10 : ℚ) then "Negative" else "Neutral")
        (pyRound3 p))) := by
    simp only [get_insights, ht, Bool.false_eq_true, if_false, hp, gt_iff_lt]
  by_cases h1 : (1/10 : ℚ) < p
  · rw [if_pos h1] at hbase
    refine ⟨"Positive", hbase, ⟨fun _ => h1, fun _ => rfl⟩, ?_, ?_⟩
    · constructor
      · intro h
        exact absurd h (by decide)
      · intro h2
        exact absurd h2 (by linarith)
    · constructor
      · intro h
        exact absurd h (by decide)
      · rintro ⟨hle, _⟩
        exact absurd h1 (not_lt.mpr hle)
  · rw [if_neg h1] at hbase
    by_cases h2 : p < -(1/10 : ℚ)
    · rw [if_pos h2] at hbase
      refine ⟨"Negative", hbase, ?_, ⟨fun _ => h2, fun _ => rfl⟩, ?_⟩
      · constructor
        · intro h
          exact absurd h (by decide)
        · intro h3
          exact absurd h3 h1
      · constructor
        · intro h
          exact absurd h (by decide)
        · rintro ⟨_, hge⟩
          exact absurd h2 (not_lt.mpr hge)
    · rw [if_neg h2] at hbase
      refine ⟨"Neutral", hbase, ?_, ?_,
        ⟨fun _ => ⟨not_lt.mp h1, not_lt.mp h2⟩, fun _ => rfl⟩⟩
      · constructor
        · intro h
          exact absurd h (by decide)
        · intro h3
          exact absurd h3 h1
      · constructor
        · intro h
          exact absurd h (by decide)
        · intro h3
          exact absurd h3 h2

/-- Witness for C2 at polarity `1/2` on a concrete transcript. -/
theorem sentiment_label_thresholds_witness :
    ∃ lab : String,
      (get_insights envHappy (some sampleText)).sentiment =
          some (some { label := lab, score := pyRound3 (1/2 : ℚ) }) ∧
        (lab = "Positive" ↔ (1/10 : ℚ) < (1/2 : ℚ)) ∧
        (lab = "Negative" ↔ (1/2 : ℚ) < -(1/10 : ℚ)) ∧
        (lab = "Neutral" ↔ ((1/2 : ℚ) ≤ (1/10 : ℚ) ∧ -(1/10 : ℚ) ≤ (1/2 : ℚ))) :=
  sentiment_label_thresholds envHappy (some sampleText) (1/2 : ℚ) rfl rfl

/-- Claim C3: on a non-empty transcript with the NER model loaded and spaCy
returning the spans `spans`, the entities field holds a list of pairs drawn
from `spans` whose categories are among PERSON/ORG/GPE/PRODUCT, without
duplicate pairs, ordered by first occurrence in the tagger's output; and with
the NER model unavailable the entities field is the empty list. -/
theorem entities_filtered_deduped_ordered (env env2 : InsightsEnv)
    (t : Option String) (spans : List (String × String))
    (ht : isFalsy t = false)
    (hn : env.nlpLoaded = true)
    (hs : env.nerSpans (t.getD emptyStr) = some spans)
    (h2 : env2.nlpLoaded = false) :
    (∃ E, (get_insights env t).entities = some E ∧
      (∀ pr ∈ E, pr ∈ spans ∧ pr.2 ∈ allowedLabels) ∧
      E.Nodup ∧
      E.Pairwise (fun a b => firstIdx a spans < firstIdx b spans)) ∧
    (get_insights env2 t).entities = some [] := by
  constructor
  · refine ⟨dedupKeepFirst []
      (spans.filter (fun e => decide (e.2 ∈ allowedLabels))), ?_, ?_, ?_, ?_⟩
    · simp [get_insights, ht, hn, hs]
    · intro pr hpr
      have h3 := (mem_dedupKeepFirst _ [] pr).mp hpr
      have h4 := List.mem_filter.mp h3.1
      exact ⟨h4.1, of_decide_eq_true h4.2⟩
    · exact nodup_dedupKeepFirst _ []
    · refine List.Pairwise.imp_of_mem ?_
        (pairwise_firstIdx_dedupKeepFirst _ [])
      intro a b ha hb hr
      have ha2 := ((mem_dedupKeepFirst _ [] a).mp ha).1
      have hb2 := ((mem_dedupKeepFirst _ [] b).mp hb).1
      exact firstIdx_filter_lt _ spans a b ha2 hb2 hr
  · simp [get_insights, ht, h2]

/-- Witness for C3 at a concrete environment with a duplicated span. -/
theorem entities_filtered_deduped_ordered_witness :
    (∃ E, (get_insights envHappy (some sampleText)).entities = some E ∧
      (∀ pr ∈ E,
        pr ∈ [("Paris", "GPE"), ("John Smith", "PERSON"), ("Paris", "GPE")] ∧
          pr.2 ∈ allowedLabels) ∧
      E.Nodup ∧
      E.Pairwise (fun a b =>
        firstIdx a [("Paris", "GPE"), ("John Smith", "PERSON"),
          ("Paris", "GPE")] <
        firstIdx b [("Paris", "GPE"), ("John Smith", "PERSON"),
          ("Paris", "GPE")])) ∧
    (get_insights envNoModels (some sampleText)).entities = some [] :=
  entities_filtered_deduped_ordered envHappy envNoModels (some sampleText)
    [("Paris", "GPE"), ("John Smith", "PERSON"), ("Paris", "GPE")]
    rfl rfl rfl rfl

/-- Claim C4: on an empty or absent transcript, `get_insights` returns the
bundle with no sentiment key, no summary key and no entities key, and does so
without consulting any analysis oracle (the result is the same in every
environment). -/
theorem empty_transcript_empty_bundle (env env2 : InsightsEnv)
    (t : Option String)
    (ht : isFalsy t = true) :
    get_insights env t =
        { sentiment := none, summary := none, entities := none } ∧
      get_insights env t = get_insights env2 t := by
  constructor <;> simp [get_insights, ht]

/-- Witness for C4 on the absent transcript. -/
theorem empty_transcript_empty_bundle_witness :
    get_insights envHappy none =
        { sentiment := none, summary := none, entities := none } ∧
      get_insights envHappy none = get_insights envNoModels none :=
  empty_transcript_empty_bundle envHappy envNoModels none rfl

/-- Claim C5: on a non-empty transcript the three analyses fail soft and
independently.  A raising TextBlob call (`e1`) only makes the sentiment value
`None`, while the summary and entities fields coincide with those of any
environment `e1b` with the same summarizer and NER oracles; a raising
summarizer call (`e2`) only makes the summary `None`, leaving sentiment and
entities as computed from their own oracles (`e2b`); a raising spaCy call
(`e3`) only makes the entities list empty, leaving sentiment and summary as
computed from their own oracles (`e3b`). -/
theorem analyses_fail_soft_independently
    (e1 e1b e2 e2b e3 e3b : InsightsEnv) (t : Option String)
    (ht : isFalsy t = false)
    (h1 : e1.textblobPolarity (t.getD emptyStr) = none)
    (h1s : e1.summarizerLoaded = e1b.summarizerLoaded)
    (h1su : e1.summarize = e1b.summarize)
    (h1n : e1.nlpLoaded = e1b.nlpLoaded)
    (h1ns : e1.nerSpans = e1b.nerSpans)
    (h2 : e2.summarizerLoaded = true)
    (h2su : e2.summarize ((t.getD emptyStr).take 1000) = none)
    (h2p : e2.textblobPolarity = e2b.textblobPolarity)
    (h2n : e2.nlpLoaded = e2b.nlpLoaded)
    (h2ns : e2.nerSpans = e2b.nerSpans)
    (h3 : e3.nlpLoaded = true)
    (h3ns : e3.nerSpans (t.getD emptyStr) = none)
    (h3p : e3.textblobPolarity = e3b.textblobPolarity)
    (h3s : e3.summarizerLoaded = e3b.summarizerLoaded)
    (h3su : e3.summarize = e3b.summarize) :
    ((get_insights e1 t).sentiment = some none ∧
      (get_insights e1 t).summary = (get_insights e1b t).summary ∧
      (get_insights e1 t).entities = (get_insights e1b t).entities) ∧
    ((get_insights e2 t).summary = some none ∧
      (get_insights e2 t).sentiment = (get_insights e2b t).sentiment ∧
      (get_insights e2 t).entities = (get_insights e2b t).entities) ∧
    ((get_insights e3 t).entities = some [] ∧
      (get_insights e3 t).sentiment = (get_insights e3b t).sentiment ∧
      (get_insights e3 t).summary = (get_insights e3b t).summary) := by
  refine ⟨⟨?_, ?_, ?_⟩, ⟨?_, ?_, ?_⟩, ⟨?_, ?_, ?_⟩⟩ <;>
    simp [get_insights, ht, h1, h1s, h1su, h1n, h1ns, h2, h2su, h2p, h2n,
      h2ns, h3, h3ns, h3p, h3s, h3su]

/-- Witness for C5: each failing environment compared against the fully
succeeding one. -/
theorem analyses_fail_soft_independently_witness :
    ((get_insights envSentFail (some sampleText)).sentiment = some none ∧
      (get_insights envSentFail (some sampleText)).summary =
        (get_insights envHappy (some sampleText)).summary ∧
      (get_insights envSentFail (some sampleText)).entities =
        (get_insights envHappy (some sampleText)).entities) ∧
    ((get_insights envSumFail (some sampleText)).summary = some none ∧
      (get_insights envSumFail (some sampleText)).sentiment =
        (get_insights envHappy (some sampleText)).sentiment ∧
      (get_insights envSumFail (some sampleText)).entities =
        (get_insights envHappy (some sampleText)).entities) ∧
    ((get_insights envNerFail (some sampleText)).entities = some [] ∧
      (get_insights envNerFail (some sampleText)).sentiment =
        (get_insights envHappy (some sampleText)).sentiment ∧
      (get_insights envNerFail (some sampleText)).summary =
        (get_insights envHappy (some sampleText)).summary) :=
  analyses_fail_soft_independently envSentFail envHappy envSumFail envHappy
    envNerFail envHappy (some sampleText)
    rfl rfl rfl rfl rfl rfl rfl rfl rfl rfl rfl rfl rfl rfl rfl rfl

/-- Claim C10: on every non-empty transcript the returned bundle carries all
three keys, whatever the models' availability and the analyses' outcomes:
`sentiment`, `summary` and `entities` are all present (sentiment as a value or
`None`, summary as text or `None`, entities as a possibly empty list). -/
theorem bundle_has_all_three_keys (env : InsightsEnv) (t : Option String)
    (ht : isFalsy t = false) :
    (get_insights env t).sentiment.isSome = true ∧
      (get_insights env t).summary.isSome = true ∧
      (get_insights env t).entities.isSome = true := by
  refine ⟨?_, ?_, ?_⟩
  · cases hp : env.textblobPolarity (t.getD emptyStr) <;>
      simp [get_insights, ht, hp]
  · cases hs : env.summarizerLoaded
    · simp [get_insights, ht, hs]
    · cases hsu : env.summarize ((t.getD emptyStr).take 1000) <;>
        simp [get_insights, ht, hs, hsu]
  · cases hn : env.nlpLoaded
    · simp [get_insights, ht, hn]
    · cases hns : env.nerSpans (t.getD emptyStr) <;>
        simp [get_insights, ht, hn, hns]

/-- Witness for C10 at an environment with no optional model loaded. -/
theorem bundle_has_all_three_keys_witness :
    (get_insights envNoModels (some sampleText)).sentiment.isSome = true ∧
      (get_insights envNoModels (some sampleText)).summary.isSome = true ∧
      (get_insights envNoModels (some sampleText)).entities.isSome = true :=
  bundle_has_all_three_keys envNoModels (some sampleText) rfl

/-- Claim C9: `fetch_paper_metadata` queries its candidate endpoints in order,
every request with the fixed timeout 10; it returns the decoded JSON body of
the first endpoint answering 200; it keeps moving to the next endpoint past
404s, other statuses and request exceptions (the requested endpoints are
exactly those up to and including the first 200, i.e. all of them when none
answers 200); and it returns `none` rather than raising when no endpoint
answers 200. -/
theorem fetch_paper_metadata_first_200 (http : String → HttpResult)
    (arxiv_id : String) :
    ((fetch_paper_metadata http arxiv_id).2.all
        (fun pr => pr.2 == 10) = true) ∧
    ((fetch_paper_metadata http arxiv_id).1 =
      ((paperEndpoints (cleanArxivId arxiv_id)).find?
        (fun e => (http e).isOk200)).bind (fun e => (http e).bodyOf)) ∧
    ((fetch_paper_metadata http arxiv_id).2.map Prod.fst =
      (paperEndpoints (cleanArxivId arxiv_id)).takeWhile
          (fun e => !(http e).isOk200) ++
        ((paperEndpoints (cleanArxivId arxiv_id)).dropWhile
          (fun e => !(http e).isOk200)).take 1) ∧
    ((paperEndpoints (cleanArxivId arxiv_id)).all
        (fun e => !(http e).isOk200) = true →
      (fetch_paper_metadata http arxiv_id).1 = none) := by
  have h := fetchLoop_spec http (paperEndpoints (cleanArxivId arxiv_id))
  refine ⟨?_, h.1, h.2.1, ?_⟩
  · rw [List.all_eq_true]
    intro pr hpr
    simp [h.2.2 pr hpr]
  · intro hall
    have hnone : (paperEndpoints (cleanArxivId arxiv_id)).find?
        (fun e => (http e).isOk200) = none := by
      rw [List.find?_eq_none]
      intro e he
      have h4 := (List.all_eq_true.mp hall) e he
      simp at h4
      simp [h4]
    have h5 := h.1
    rw [hnone] at h5
    simpa using h5
